import Mathlib

/-!
Verification development for the dt-elysia-nest repository.

The repository is an Elysia (Bun/TypeScript) backend: HTTP CRUD controllers
over Mongoose models, plus a WebSocket layer described in `README.md`
(`websocket-manager.js`, `websocket.js`, `messageHandlers.js`).

This file shallowly embeds:
  - the JSON values exchanged on the wire and `JSON.stringify`;
  - the WebSocket connection registry (a JS `Map` keyed by id) and its
    operations `addConnection`, `removeConnection`, `getConnection`,
    `sendToConnection`, `broadcast`;
  - the dispatcher `message` handler and the domain handlers
    `handleUserMessage`, `handleProductMessage`;
  - the organisation service (`getOrganizationById`, `deleteOrganizationById`)
    and the organisation controller routes `GET /organizations/:id` and
    `POST /organizations/delete`, over a model of the Mongoose storage calls.

Effects (socket writes, console logs, domain-service invocations) are made
explicit as traces; a JS exception is an `Option String` carried alongside
the trace, or an `Except` for the HTTP layer.
-/

set_option autoImplicit false

namespace DtElysia

/-- JSON values as exchanged over the WebSocket wire. `undefined` models the
JavaScript `undefined` obtained by reading an absent object property. -/
inductive Json where
  | null : Json
  | undefined : Json
  | bool : Bool → Json
  | num : Int → Json
  | str : String → Json
  | arr : List Json → Json
  | obj : List (String × Json) → Json
deriving Repr

mutual

/-- Decidable structural equality on `Json` (JS deep equality of parsed values). -/
def Json.beq : Json → Json → Bool
  | .null, .null => true
  | .undefined, .undefined => true
  | .bool a, .bool b => a == b
  | .num a, .num b => a == b
  | .str a, .str b => a == b
  | .arr a, .arr b => Json.beqList a b
  | .obj a, .obj b => Json.beqFields a b
  | _, _ => false

def Json.beqList : List Json → List Json → Bool
  | [], [] => true
  | a :: as, b :: bs => Json.beq a b && Json.beqList as bs
  | _, _ => false

def Json.beqFields : List (String × Json) → List (String × Json) → Bool
  | [], [] => true
  | (k, a) :: as, (l, b) :: bs => k == l && Json.beq a b && Json.beqFields as bs
  | _, _ => false

end

mutual

theorem Json.beq_refl : (j : Json) → Json.beq j j = true
  | .null => rfl
  | .undefined => rfl
  | .bool b => by simp [Json.beq]
  | .num n => by simp [Json.beq]
  | .str s => by simp [Json.beq]
  | .arr xs => by simp [Json.beq, Json.beqList_refl xs]
  | .obj fs => by simp [Json.beq, Json.beqFields_refl fs]

theorem Json.beqList_refl : (xs : List Json) → Json.beqList xs xs = true
  | [] => rfl
  | x :: xs => by simp [Json.beqList, Json.beq_refl x, Json.beqList_refl xs]

theorem Json.beqFields_refl : (fs : List (String × Json)) → Json.beqFields fs fs = true
  | [] => rfl
  | (k, v) :: fs => by simp [Json.beqFields, Json.beq_refl v, Json.beqFields_refl fs]

end

mutual

theorem Json.eq_of_beq : {a b : Json} → Json.beq a b = true → a = b
  | .null, .null, _ => rfl
  | .undefined, .undefined, _ => rfl
  | .bool _, .bool _, h => by simpa [Json.beq] using congrArg Json.bool (by simpa [Json.beq] using h)
  | .num _, .num _, h => by simpa [Json.beq] using congrArg Json.num (by simpa [Json.beq] using h)
  | .str _, .str _, h => by simpa [Json.beq] using congrArg Json.str (by simpa [Json.beq] using h)
  | .arr a, .arr b, h => congrArg Json.arr (Json.eqList_of_beq (by simpa [Json.beq] using h))
  | .obj a, .obj b, h => congrArg Json.obj (Json.eqFields_of_beq (by simpa [Json.beq] using h))

theorem Json.eqList_of_beq : {a b : List Json} → Json.beqList a b = true → a = b
  | [], [], _ => rfl
  | x :: xs, y :: ys, h => by
      have h1 : Json.beq x y = true ∧ Json.beqList xs ys = true := by
        simpa [Json.beqList, Bool.and_eq_true] using h
      rw [Json.eq_of_beq h1.1, Json.eqList_of_beq h1.2]

theorem Json.eqFields_of_beq : {a b : List (String × Json)} → Json.beqFields a b = true → a = b
  | [], [], _ => rfl
  | (k, x) :: xs, (l, y) :: ys, h => by
      have h1 : (k == l) = true ∧ Json.beq x y = true ∧ Json.beqFields xs ys = true := by
        simpa [Json.beqFields, Bool.and_eq_true, and_assoc] using h
      have hk : k = l := by simpa using h1.1
      rw [hk, Json.eq_of_beq h1.2.1, Json.eqFields_of_beq h1.2.2]

end

instance : DecidableEq Json := fun a b =>
  if h : Json.beq a b = true then
    Decidable.isTrue (Json.eq_of_beq h)
  else
    Decidable.isFalse (fun he => h (he ▸ Json.beq_refl a))

mutual

/-- Model of `JSON.stringify` on the embedded JSON values. Object fields whose value is
`undefined` are omitted, as `JSON.stringify` does. -/
def Json.stringify : Json → String
  | .null => "null"
  | .undefined => "undefined"
  | .bool b => if b then "true" else "false"
  | .num n => toString n
  | .str s => "\"" ++ s ++ "\""
  | .arr xs => "[" ++ Json.stringifyList xs ++ "]"
  | .obj fs => "\x7b" ++ Json.stringifyFields fs ++ "\x7d"

def Json.stringifyList : List Json → String
  | [] => ""
  | [x] => Json.stringify x
  | x :: y :: xs => Json.stringify x ++ "," ++ Json.stringifyList (y :: xs)

def Json.stringifyFields : List (String × Json) → String
  | [] => ""
  | [(k, v)] => "\"" ++ k ++ "\":" ++ Json.stringify v
  | (k, v) :: f :: fs =>
      "\"" ++ k ++ "\":" ++ Json.stringify v ++ "," ++ Json.stringifyFields (f :: fs)

end

/-- JavaScript property access `j.k` on a value: the field value when `j` is an
object with field `k`, and `undefined` otherwise (absent field). -/
def Json.getField (j : Json) (k : String) : Json :=
  match j with
  | .obj fs => ((fs.find? (fun p => p.1 = k)).map (fun p => p.2)).getD .undefined
  | _ => .undefined

/-! WebSocket manager (`src/websocket/websocket-manager.js` in README.md).

A live WebSocket handle. `label` identifies the endpoint so that socket
writes can be observed in traces; `ok` is whether `ws.send` succeeds:
`ok = false` models a channel whose underlying `send` throws (for example a
closed socket). -/

structure Channel where
  label : String
  ok : Bool
deriving DecidableEq, Repr

/-- The `connections` map: a JavaScript `Map` from connection id to WebSocket,
represented as its entry list in insertion order, keys unique. -/
abbrev Registry : Type := List (String × Channel)

/-- Semantics of `Map.prototype.set`: overwrite in place when the key is present (keeping
its insertion position), append otherwise. -/
def mapSet (m : Registry) (k : String) (v : Channel) : Registry :=
  if m.any (fun p => p.1 = k) then
    m.map (fun p => if p.1 = k then (k, v) else p)
  else
    m ++ [(k, v)]

/-- Semantics of `Map.prototype.delete` as used here (return value ignored by the code). -/
def mapDelete (m : Registry) (k : String) : Registry :=
  m.filter (fun p => p.1 ≠ k)

/-- Semantics of `Map.prototype.get`: value of the key when present, `undefined` otherwise. -/
def mapGet (m : Registry) (k : String) : Option Channel :=
  (m.find? (fun p => p.1 = k)).map (fun p => p.2)

/-- Function `addConnection(id, ws)`: `connections.set(id, ws)`. -/
def addConnection (m : Registry) (id : String) (ws : Channel) : Registry :=
  mapSet m id ws

/-- Function `removeConnection(id)`: `connections.delete(id)`. -/
def removeConnection (m : Registry) (id : String) : Registry :=
  mapDelete m id

/-- Function `getConnection(id)`: `connections.get(id)`. -/
def getConnection (m : Registry) (id : String) : Option Channel :=
  mapGet m id

/-- Observable side effects of the WebSocket layer. -/
inductive Effect where
  | write : String → String → Effect
  | log : String → Effect
  | callService : String → String → String → Json → Effect
deriving DecidableEq, Repr

/-- Result of running a piece of JS: the effects that happened, in order, and
the exception that escaped, if any. Effects before the throw still happened. -/
structure Outcome where
  effects : List Effect
  thrown : Option String
deriving DecidableEq, Repr

/-- Call `ws.send(s)`: a write to the channel when the socket is healthy, a thrown
exception when it is not. -/
def wsSend (ws : Channel) (s : String) : Outcome :=
  if ws.ok then ⟨[Effect.write ws.label s], none⟩
  else ⟨[], some "send failed: socket closed"⟩

/-- Function `sendToConnection(id, message)`: look the connection up; if found,
`ws.send(JSON.stringify(message))`; otherwise log that none exists. -/
def sendToConnection (m : Registry) (id : String) (message : Json) : Outcome :=
  match getConnection m id with
  | some ws => wsSend ws (Json.stringify message)
  | none => ⟨[Effect.log ("No connection found for id: " ++ id)], none⟩

/-- The body of `broadcast`: `connections.forEach(ws => ws.send(JSON.stringify(message)))`.
`Map.forEach` visits entries in insertion order; an exception thrown by the
callback aborts the iteration and propagates. -/
def broadcastGo (entries : List (String × Channel)) (message : Json) : Outcome :=
  match entries with
  | [] => ⟨[], none⟩
  | (_, ws) :: rest =>
      let r := wsSend ws (Json.stringify message)
      match r.thrown with
      | some e => ⟨r.effects, some e⟩
      | none =>
          let rr := broadcastGo rest message
          ⟨r.effects ++ rr.effects, rr.thrown⟩

/-- Function `broadcast(message)` over the current `connections` map. -/
def broadcast (m : Registry) (message : Json) : Outcome :=
  broadcastGo m message

/-! Message handlers (`src/services/messageHandlers.js` in README.md). -/

/-- Function `handleUserMessage(id, data)`: dispatch on `data.action` to
`userService.updateUser` or `userService.createUser`, then broadcast a
`user_updated` envelope built from `data.payload` to all clients. -/
def handleUserMessage (m : Registry) (id : String) (data : Json) : Outcome :=
  let payload := data.getField "payload"
  let svc : List Effect :=
    match data.getField "action" with
    | .str "update" => [Effect.callService "userService" "updateUser" id payload]
    | .str "create" => [Effect.callService "userService" "createUser" id payload]
    | _ => []
  let env : Json := Json.obj
    [("type", Json.str "user"), ("id", Json.str id),
     ("data", Json.obj [("action", Json.str "user_updated"), ("payload", payload)])]
  let b := broadcast m env
  ⟨svc ++ b.effects, b.thrown⟩

/-- Function `handleProductMessage(id, data)`: dispatch on `data.action` to
`productService.updateProduct` or `productService.createProduct`, then
broadcast a `product_updated` envelope to all clients. -/
def handleProductMessage (m : Registry) (id : String) (data : Json) : Outcome :=
  let payload := data.getField "payload"
  let svc : List Effect :=
    match data.getField "action" with
    | .str "update" => [Effect.callService "productService" "updateProduct" id payload]
    | .str "create" => [Effect.callService "productService" "createProduct" id payload]
    | _ => []
  let env : Json := Json.obj
    [("type", Json.str "product"), ("id", Json.str id),
     ("data", Json.obj [("action", Json.str "product_updated"), ("payload", payload)])]
  let b := broadcast m env
  ⟨svc ++ b.effects, b.thrown⟩

/-! Dispatcher (`src/websocket/websocket.js` in README.md). -/

/-- An inbound envelope, already validated against
`t.Object(\x7btype: t.String(), id: t.String(), data: t.Any()\x7d)`. -/
structure Envelope where
  type : String
  id : String
  data : Json
deriving DecidableEq, Repr

/-- The `message(ws, \x7btype, id, data\x7d)` handler of the `/ws` endpoint:
a `switch` on `type` routing to `handleUserMessage` or `handleProductMessage`,
logging and dropping any other type. -/
def messageHandler (m : Registry) (e : Envelope) : Outcome :=
  match e.type with
  | "user" => handleUserMessage m e.id e.data
  | "product" => handleProductMessage m e.id e.data
  | _ => ⟨[Effect.log ("Unknown message type: " ++ e.type)], none⟩

/-! Organisation storage (Mongoose `OrganizationModel`).

A stored organisation document. Only the `_id` and a representative `name`
field matter for the routes under verification; the remaining schema fields
are opaque to the control flow. -/

structure OrgDoc where
  oid : String
  name : String
deriving DecidableEq, Repr

/-- The organisations collection: documents with unique `_id`. -/
abbrev OrgDb : Type := List OrgDoc

/-- Whether a string casts to a MongoDB `ObjectId`: Mongoose accepts a
24-character hex string; anything else makes `findById`/`deleteOne` reject
with a `CastError`. -/
def castableObjectId (s : String) : Bool :=
  s.length == 24 && s.toList.all (fun c => c.isDigit || (Char.ofNat 97 ≤ c && c ≤ Char.ofNat 102) || (Char.ofNat 65 ≤ c && c ≤ Char.ofNat 70))

/-- Call `OrganizationModel.findById(id)`: throws a `CastError` on an uncastable
id; otherwise resolves with the matching document or `null`. -/
def findById (db : OrgDb) (id : String) : Except String (Option OrgDoc) :=
  if castableObjectId id then Except.ok (db.find? (fun d => d.oid == id))
  else Except.error "CastError"

/-- The result object a resolved `deleteOne` yields:
`\x7backnowledged, deletedCount\x7d`. It is a JS object, hence truthy. -/
structure DeleteResult where
  acknowledged : Bool
  deletedCount : Nat
deriving DecidableEq, Repr

/-- Call `OrganizationModel.deleteOne(\x7b_id: id\x7d)`: throws a `CastError` on an
uncastable id; otherwise resolves with a `DeleteResult` whose `deletedCount`
is 1 when a document matched and 0 when none did, and the collection with the
matching document removed. -/
def deleteOne (db : OrgDb) (id : String) : Except String (DeleteResult × OrgDb) :=
  if castableObjectId id then
    Except.ok (⟨true, if db.any (fun d => d.oid == id) then 1 else 0⟩,
               db.filter (fun d => !(d.oid == id)))
  else Except.error "CastError"

/-! Organisation service (`organisation.service.ts`). -/

/-- Service method `getOrganizationById(id)`: `try \x7b return await OrganizationModel.findById(id) \x7d
catch \x7b return null \x7d`. The `Except` layer is the exceptions a JS async
function may reject with; the catch converts any storage error to `null`. -/
def getOrganizationById (db : OrgDb) (id : String) : Except String (Option OrgDoc) :=
  match findById db id with
  | Except.ok r => Except.ok r
  | Except.error _ => Except.ok none

/-- Service method `deleteOrganizationById(id)`: `try \x7b return await OrganizationModel.deleteOne(\x7b_id:id\x7d) \x7d
catch \x7b return null \x7d`. Returns the service result (a `DeleteResult`, or
`null` if the storage call threw) together with the post-state of the
collection. -/
def deleteOrganizationById (db : OrgDb) (id : String) :
    Except String (Option DeleteResult) × OrgDb :=
  match deleteOne db id with
  | Except.ok (r, db2) => (Except.ok (some r), db2)
  | Except.error _ => (Except.ok none, db)

/-! Organisation controller (`organisation.controller.ts`). -/

/-- An HTTP response: Elysia default status 200, overridden via `set.status`;
the body as the JSON the framework serializes the returned value to. -/
structure HttpResponse where
  status : Nat
  body : Json
deriving DecidableEq, Repr

deriving instance DecidableEq for Except

/-- The JSON shape a found organisation document is returned as. -/
def OrgDoc.toJson (d : OrgDoc) : Json :=
  Json.obj [("_id", Json.str d.oid), ("name", Json.str d.name)]

/-- The JSON shape of a `DeleteResult`. -/
def DeleteResult.toJson (r : DeleteResult) : Json :=
  Json.obj [("acknowledged", Json.bool r.acknowledged),
            ("deletedCount", Json.num (Int.ofNat r.deletedCount))]

/-- Route `GET /organizations/:id`: `const user = await getOrganizationById(params.id);
if (!user) \x7b set.status = 400; return \x7bmessage: "Id not found"\x7d \x7d return user;`.
An exception from the service would escape the handler (`Except.error`). -/
def getOrgByIdRoute (db : OrgDb) (id : String) : Except String HttpResponse :=
  match getOrganizationById db id with
  | Except.error e => Except.error e
  | Except.ok none =>
      Except.ok ⟨400, Json.obj [("message", Json.str "Id not found")]⟩
  | Except.ok (some d) => Except.ok ⟨200, d.toJson⟩

/-- Route `POST /organizations/delete`: `let result = await deleteOrganizationById(body.id);
if (!result) \x7b set.status = 400; return "Id not found" \x7d
return \x7bmessage: "Record Deleted", data: result\x7d`. Note the 400 body is the
bare string, and `result` is falsy only when the service returned `null`. -/
def deleteOrgRoute (db : OrgDb) (id : String) : Except String HttpResponse × OrgDb :=
  match deleteOrganizationById db id with
  | (Except.error e, db2) => (Except.error e, db2)
  | (Except.ok none, db2) => (Except.ok ⟨400, Json.str "Id not found"⟩, db2)
  | (Except.ok (some r), db2) =>
      (Except.ok ⟨200, Json.obj [("message", Json.str "Record Deleted"),
                                 ("data", r.toJson)]⟩, db2)

/-! Helper lemmas about the registry map. -/

theorem mapSet_cons_ne (p : String × Channel) (rest : Registry) (k : String) (v : Channel)
    (hp : p.1 ≠ k) : mapSet (p :: rest) k v = p :: mapSet rest k v := by
  by_cases hr : rest.any (fun q => q.1 = k)
  · simp [mapSet, hp, hr]
  · simp [mapSet, hp, hr]

theorem mapGet_cons_ne (p : String × Channel) (rest : Registry) (k : String)
    (hp : p.1 ≠ k) : mapGet (p :: rest) k = mapGet rest k := by
  simp [mapGet, List.find?_cons, hp]

theorem mapGet_mapSet_self (m : Registry) (k : String) (v : Channel) :
    mapGet (mapSet m k v) k = some v := by
  induction m with
  | nil => simp [mapSet, mapGet]
  | cons p rest ih =>
      by_cases hp : p.1 = k
      · have hany : (p :: rest).any (fun q => q.1 = k) = true := by
          simp [List.any_cons, hp]
        simp [mapSet, hany, mapGet, List.find?_cons, hp]
      · rw [mapSet_cons_ne p rest k v hp, mapGet_cons_ne p (mapSet rest k v) k hp]
        exact ih

theorem mapDelete_of_absent (m : Registry) (k : String) (h : mapGet m k = none) :
    mapDelete m k = m := by
  induction m with
  | nil => rfl
  | cons p rest ih =>
      by_cases hp : p.1 = k
      · exfalso
        simp [mapGet, List.find?_cons, hp] at h
      · rw [mapGet_cons_ne p rest k hp] at h
        simp only [mapDelete, List.filter_cons]
        rw [if_pos (by simpa using hp)]
        have := ih h
        simp only [mapDelete] at this
        rw [this]

theorem mapGet_mapDelete_self (m : Registry) (k : String) :
    mapGet (mapDelete m k) k = none := by
  induction m with
  | nil => rfl
  | cons p rest ih =>
      by_cases hp : p.1 = k
      · simp only [mapDelete, List.filter_cons]
        rw [if_neg (by simpa using hp)]
        exact ih
      · simp only [mapDelete, List.filter_cons]
        rw [if_pos (by simpa using hp)]
        show mapGet (p :: mapDelete rest k) k = none
        rw [mapGet_cons_ne p (mapDelete rest k) k hp]
        exact ih

/-- Claim C4: registering `c1` under an id and then `c2` under the same id
leaves the registry mapping that id to `c2`: after
`addConnection(id, c1); addConnection(id, c2)`, `getConnection(id)` returns
`c2` (last-write-wins overwrite, no uniqueness error), from any starting
registry state. -/
theorem register_last_write_wins (m : Registry) (id : String) (c1 c2 : Channel) :
    getConnection (addConnection (addConnection m id c1) id c2) id = some c2 := by
  simp only [getConnection, addConnection]
  exact mapGet_mapSet_self (mapSet m id c1) id c2

/-- Claim C5: `removeConnection` is a no-op on an id that is not registered
(the registry is unchanged and nothing is thrown, the operation being total),
and it is idempotent: removing the same id twice yields the same registry
state as removing it once. -/
theorem deregister_idempotent_noop (m : Registry) (id : String) :
    (getConnection m id = none → removeConnection m id = m)
    ∧ removeConnection (removeConnection m id) id = removeConnection m id := by
  constructor
  · intro h
    exact mapDelete_of_absent m id h
  · exact mapDelete_of_absent (mapDelete m id) id (mapGet_mapDelete_self m id)

/-- Witness for C5 at a concrete input: removing the unregistered id `B`
leaves a one-entry registry unchanged, and a second removal of `A` after the
first changes nothing. -/
theorem deregister_idempotent_noop_witness :
    removeConnection [("A", Channel.mk "A" true)] "B" = [("A", Channel.mk "A" true)]
    ∧ removeConnection (removeConnection [("A", Channel.mk "A" true)] "A") "A"
        = removeConnection [("A", Channel.mk "A" true)] "A" :=
  ⟨(deregister_idempotent_noop [("A", Channel.mk "A" true)] "B").1 (by rfl),
   (deregister_idempotent_noop [("A", Channel.mk "A" true)] "A").2⟩

/-- Claim C6: `sendToConnection(id, m)` on an id absent from the registry
performs no socket write, logs the missing connection, and throws nothing;
on an id mapped to a healthy channel it performs exactly one write, of the
serialized envelope, to that channel. -/
theorem sendTo_unknown_id_safe (m : Registry) (id : String) (msg : Json) :
    (getConnection m id = none →
      sendToConnection m id msg =
        ⟨[Effect.log ("No connection found for id: " ++ id)], none⟩)
    ∧ (∀ ws, getConnection m id = some ws → ws.ok = true →
        sendToConnection m id msg =
          ⟨[Effect.write ws.label (Json.stringify msg)], none⟩) := by
  constructor
  · intro h
    simp [sendToConnection, h]
  · intro ws h hok
    simp [sendToConnection, h, wsSend, hok]

/-- Witness for C6 at concrete inputs: sending to the unregistered id `B`
only logs, and sending to the registered id `A` writes the serialized
envelope to channel `A`. -/
theorem sendTo_unknown_id_safe_witness :
    sendToConnection [("A", Channel.mk "A" true)] "B" (Json.str "x") =
      ⟨[Effect.log "No connection found for id: B"], none⟩
    ∧ sendToConnection [("A", Channel.mk "A" true)] "A" (Json.str "x") =
      ⟨[Effect.write "A" (Json.stringify (Json.str "x"))], none⟩ :=
  ⟨(sendTo_unknown_id_safe [("A", Channel.mk "A" true)] "B" (Json.str "x")).1 (by rfl),
   (sendTo_unknown_id_safe [("A", Channel.mk "A" true)] "A" (Json.str "x")).2
     (Channel.mk "A" true) (by rfl) (by rfl)⟩

/-! Helper lemmas about broadcasting. -/

theorem broadcastGo_all_ok (entries : List (String × Channel)) (msg : Json)
    (h : ∀ p ∈ entries, p.2.ok = true) :
    broadcastGo entries msg =
      ⟨entries.map (fun p => Effect.write p.2.label (Json.stringify msg)), none⟩ := by
  induction entries with
  | nil => rfl
  | cons p rest ih =>
      have hp : p.2.ok = true := h p (List.mem_cons_self p rest)
      have hrest : ∀ q ∈ rest, q.2.ok = true := fun q hq => h q (List.mem_cons_of_mem p hq)
      simp [broadcastGo, wsSend, hp, ih hrest]

theorem broadcast_all_ok (m : Registry) (msg : Json) (h : ∀ p ∈ m, p.2.ok = true) :
    broadcast m msg =
      ⟨m.map (fun p => Effect.write p.2.label (Json.stringify msg)), none⟩ :=
  broadcastGo_all_ok m msg h

/-- Claim C2: with every registered channel healthy, `broadcast(m)` writes
the one serialized form of `m` to every connection registered at call time,
in registry order, exactly one write per registry entry and nothing thrown;
consequently every effect of the broadcast is a write of that same
serialized envelope to some registered connection. -/
theorem broadcast_delivers_to_all (m : Registry) (msg : Json)
    (h : ∀ p ∈ m, p.2.ok = true) :
    broadcast m msg =
      ⟨m.map (fun p => Effect.write p.2.label (Json.stringify msg)), none⟩
    ∧ ∀ e ∈ (broadcast m msg).effects,
        ∃ p ∈ m, e = Effect.write p.2.label (Json.stringify msg) := by
  have heq := broadcast_all_ok m msg h
  refine ⟨heq, ?_⟩
  intro e he
  rw [heq] at he
  simpa [List.mem_map, eq_comm] using he

/-- Witness for C2: the spec scenario, registry holding connections `A` and
`B`, broadcasting the info envelope: both receive the identical serialized
envelope, once each. -/
theorem broadcast_delivers_to_all_witness :
    broadcast [("A", Channel.mk "A" true), ("B", Channel.mk "B" true)]
        (Json.obj [("type", Json.str "info"), ("message", Json.str "hi")]) =
      ⟨[Effect.write "A" "\x7b\"type\":\"info\",\"message\":\"hi\"\x7d",
        Effect.write "B" "\x7b\"type\":\"info\",\"message\":\"hi\"\x7d"], none⟩ :=
  (broadcast_delivers_to_all
    [("A", Channel.mk "A" true), ("B", Channel.mk "B" true)]
    (Json.obj [("type", Json.str "info"), ("message", Json.str "hi")])
    (by decide)).1

/-- Counterexample to claim C3: with connection `A` registered first and its
socket closed (its `send` throws) and a healthy connection `B` registered
after it, `broadcast` delivers nothing to the still-registered `B` and the
exception escapes to the caller, contradicting that a per-recipient failure
never aborts the rest of the broadcast. -/
theorem broadcast_failure_cex :
    (broadcast [("A", Channel.mk "A" false), ("B", Channel.mk "B" true)]
        (Json.str "hi")).thrown ≠ none
    ∧ Effect.write "B" (Json.stringify (Json.str "hi")) ∉
        (broadcast [("A", Channel.mk "A" false), ("B", Channel.mk "B" true)]
          (Json.str "hi")).effects := by
  constructor
  · intro h
    simp [broadcast, broadcastGo, wsSend] at h
  · intro h
    simp [broadcast, broadcastGo, wsSend] at h

/-- Claim C3 as amended: a failing write does abort the broadcast. If the
registry is `pre ++ (k, ws) :: post` with every channel of `pre` healthy and
the send of `ws` throwing, `broadcast` writes the serialized envelope to
exactly the connections of `pre` (the ones visited before the failure, in
order), the failing connection and every connection of `post` receive
nothing, and the exception escapes to the caller. -/
theorem broadcast_failure_aborts (pre post : Registry) (k : String) (ws : Channel)
    (msg : Json) (hpre : ∀ p ∈ pre, p.2.ok = true) (hws : ws.ok = false) :
    broadcast (pre ++ (k, ws) :: post) msg =
      ⟨pre.map (fun p => Effect.write p.2.label (Json.stringify msg)),
       some "send failed: socket closed"⟩ := by
  induction pre with
  | nil => simp [broadcast, broadcastGo, wsSend, hws]
  | cons p rest ih =>
      have hp : p.2.ok = true := hpre p (List.mem_cons_self p rest)
      have hrest : ∀ q ∈ rest, q.2.ok = true := fun q hq => hpre q (List.mem_cons_of_mem p hq)
      have ihr := ih hrest
      simp only [broadcast] at ihr
      simp [broadcast, broadcastGo, wsSend, hp, ihr]

/-- Witness for the amended C3: with healthy `A`, then failing `C`, then
healthy `B`, broadcasting writes only to `A` and the exception escapes. -/
theorem broadcast_failure_aborts_witness :
    broadcast [("A", Channel.mk "A" true), ("C", Channel.mk "C" false),
               ("B", Channel.mk "B" true)] (Json.str "hi") =
      ⟨[Effect.write "A" (Json.stringify (Json.str "hi"))],
       some "send failed: socket closed"⟩ :=
  broadcast_failure_aborts [("A", Channel.mk "A" true)] [("B", Channel.mk "B" true)]
    "C" (Channel.mk "C" false) (Json.str "hi") (by decide) (by rfl)

/-- Claim C1: the dispatcher routes each inbound envelope by its `type` to
exactly one handler, `handleUserMessage` for `user` and
`handleProductMessage` for `product`; for every other type it invokes no
handler, produces only the unknown-type log, and throws nothing. -/
theorem dispatch_routes_by_type (m : Registry) (e : Envelope) :
    (e.type = "user" → messageHandler m e = handleUserMessage m e.id e.data)
    ∧ (e.type = "product" → messageHandler m e = handleProductMessage m e.id e.data)
    ∧ (e.type ≠ "user" → e.type ≠ "product" →
        messageHandler m e =
          ⟨[Effect.log ("Unknown message type: " ++ e.type)], none⟩) := by
  refine ⟨?_, ?_, ?_⟩
  · intro h
    simp [messageHandler, h]
  · intro h
    simp [messageHandler, h]
  · intro h1 h2
    simp only [messageHandler]

/-- Witness for C1 at concrete envelopes: an unknown type `bogus` yields only
the log and no thrown error, and a `user` envelope is routed to
`handleUserMessage`. -/
theorem dispatch_routes_by_type_witness :
    messageHandler [] ⟨"bogus", "1", Json.null⟩ =
      ⟨[Effect.log "Unknown message type: bogus"], none⟩
    ∧ messageHandler [] ⟨"user", "1", Json.null⟩ =
      handleUserMessage [] "1" Json.null :=
  ⟨(dispatch_routes_by_type [] ⟨"bogus", "1", Json.null⟩).2.2 (by decide) (by decide),
   (dispatch_routes_by_type [] ⟨"user", "1", Json.null⟩).1 (by rfl)⟩

/-! Concrete values of the user-create scenario of the spec. -/

def annPayload : Json := Json.obj [("name", Json.str "Ann")]

def annInboundData : Json :=
  Json.obj [("action", Json.str "create"), ("payload", annPayload)]

def annResultEnvelope : Json :=
  Json.obj [("type", Json.str "user"), ("id", Json.str "42"),
            ("data", Json.obj [("action", Json.str "user_updated"),
                               ("payload", annPayload)])]

/-- Claim C7: a `user`-typed envelope with id `42` and data
`action create, payload name Ann` makes the dispatcher invoke
`userService.createUser("42", payload)` and then broadcast the
`user_updated` result envelope to every registered connection (all channels
healthy); in particular every registered connection, the triggering one
included, receives the serialized result envelope. -/
theorem user_create_broadcasts_to_all (m : Registry) (h : ∀ p ∈ m, p.2.ok = true) :
    messageHandler m ⟨"user", "42", annInboundData⟩ =
      ⟨Effect.callService "userService" "createUser" "42" annPayload ::
        m.map (fun p => Effect.write p.2.label (Json.stringify annResultEnvelope)),
       none⟩
    ∧ ∀ k ws, (k, ws) ∈ m →
        Effect.write ws.label (Json.stringify annResultEnvelope) ∈
          (messageHandler m ⟨"user", "42", annInboundData⟩).effects := by
  have hstep : messageHandler m ⟨"user", "42", annInboundData⟩ =
      ⟨[Effect.callService "userService" "createUser" "42" annPayload]
          ++ (broadcast m annResultEnvelope).effects,
       (broadcast m annResultEnvelope).thrown⟩ := rfl
  have hb := broadcast_all_ok m annResultEnvelope h
  constructor
  · rw [hstep, hb]
    rfl
  · intro k ws hm
    rw [hstep, hb]
    simp only [List.singleton_append, List.mem_cons, List.mem_map]
    exact Or.inr ⟨(k, ws), hm, rfl⟩

/-- Witness for C7: registry holding the triggering connection `42` and a
second connection `B`; both receive the serialized `user_updated` envelope
after the `createUser` service call. -/
theorem user_create_broadcasts_to_all_witness :
    messageHandler [("42", Channel.mk "42" true), ("B", Channel.mk "B" true)]
        ⟨"user", "42", annInboundData⟩ =
      ⟨[Effect.callService "userService" "createUser" "42" annPayload,
        Effect.write "42" (Json.stringify annResultEnvelope),
        Effect.write "B" (Json.stringify annResultEnvelope)], none⟩ :=
  (user_create_broadcasts_to_all
    [("42", Channel.mk "42" true), ("B", Channel.mk "B" true)] (by decide)).1

/-- Claim C8, evaluated at the failing input: for the well-formed ObjectId
`aaaaaaaaaaaaaaaaaaaaaaaa` absent from storage, `POST /organizations/delete`
does not return the specified 400 with `message: Id not found`; it returns
status 200 with `message: Record Deleted` and the `deletedCount 0` result,
because `deleteOne` resolves with a truthy result object even when no
document matched. -/
theorem deleteOrg_absent_id_returns_success :
    deleteOrgRoute [] "aaaaaaaaaaaaaaaaaaaaaaaa" =
      (Except.ok ⟨200, Json.obj [("message", Json.str "Record Deleted"),
          ("data", Json.obj [("acknowledged", Json.bool true),
                             ("deletedCount", Json.num 0)])]⟩, [])
    ∧ (deleteOrgRoute [] "aaaaaaaaaaaaaaaaaaaaaaaa").1 ≠
        Except.ok ⟨400, Json.obj [("message", Json.str "Id not found")]⟩ := by
  constructor
  · decide
  · decide

/-- Claim C9: whenever the service lookup `getOrganizationById` yields null,
`GET /organizations/:id` returns status 400 with the structured body
`message: Id not found` and no exception escapes the handler; whenever it
yields a document, the route returns it with status 200. -/
theorem getOrg_not_found_400 (db : OrgDb) (id : String) :
    (getOrganizationById db id = Except.ok none →
      getOrgByIdRoute db id =
        Except.ok ⟨400, Json.obj [("message", Json.str "Id not found")]⟩)
    ∧ (∀ d, getOrganizationById db id = Except.ok (some d) →
        getOrgByIdRoute db id = Except.ok ⟨200, d.toJson⟩) := by
  constructor
  · intro h
    simp [getOrgByIdRoute, h]
  · intro d h
    simp [getOrgByIdRoute, h]

/-- Witness for C9 at concrete inputs: an id finding no document gets the
400 `Id not found` body, and an id finding a document gets that document. -/
theorem getOrg_not_found_400_witness :
    getOrgByIdRoute [] "zzz" =
      Except.ok ⟨400, Json.obj [("message", Json.str "Id not found")]⟩
    ∧ getOrgByIdRoute [OrgDoc.mk "aaaaaaaaaaaaaaaaaaaaaaaa" "Acme"]
        "aaaaaaaaaaaaaaaaaaaaaaaa" =
      Except.ok ⟨200, (OrgDoc.mk "aaaaaaaaaaaaaaaaaaaaaaaa" "Acme").toJson⟩ :=
  ⟨(getOrg_not_found_400 [] "zzz").1 (by decide),
   (getOrg_not_found_400 [OrgDoc.mk "aaaaaaaaaaaaaaaaaaaaaaaa" "Acme"]
      "aaaaaaaaaaaaaaaaaaaaaaaa").2
     (OrgDoc.mk "aaaaaaaaaaaaaaaaaaaaaaaa" "Acme") (by decide)⟩

/-- Claim C10: both organisation service operations are total at the service
boundary: for every storage state and every id string, well formed or not,
`getOrganizationById` and `deleteOrganizationById` resolve to a value (the
document, the delete result, or null) and never reject, any storage error
having been caught inside the service. -/
theorem org_service_total (db : OrgDb) (id : String) :
    (∃ r, getOrganizationById db id = Except.ok r)
    ∧ (∃ r, (deleteOrganizationById db id).1 = Except.ok r) := by
  constructor
  · cases h : findById db id with
    | ok r => exact ⟨r, by simp [getOrganizationById, h]⟩
    | error e => exact ⟨none, by simp [getOrganizationById, h]⟩
  · cases h : deleteOne db id with
    | ok p =>
        obtain ⟨r, db2⟩ := p
        exact ⟨some r, by simp [deleteOrganizationById, h]⟩
    | error e => exact ⟨none, by simp [deleteOrganizationById, h]⟩

end DtElysia
